import Mathlib

/-
  Verification development for the HM3301 particulate-matter sensor driver
  (src/modules/hm3301/hm3301.c).

  Modelling conventions:
  * machine integers are `Nat` (all quantities handled by the driver are
    non-negative in its defined domain); C bit operations on non-negative
    values are rendered arithmetically: `x >> k` is `x / 2 ^ k`,
    `x & GENMASK(k-1,0)` is `x % 2 ^ k`, `x << k` is `x * 2 ^ k`;
  * error returns are `Int` (0 = success, negative errno as in the C code);
  * the i2c transport (`i2c_master_send` / `i2c_master_recv`) is an external
    collaborator; it is modelled as an oracle `Nat → TxnRes` giving the
    device's behaviour for the n-th bus transaction of a session, and every
    issued transaction and every sleep is recorded in an event trace.
-/

namespace HM3301

/-- Polynomial of the driver's CRC-8 (HM3301_CRC8_POLYNOMIAL). -/
def HM3301_CRC8_POLYNOMIAL : Nat := 0x31

/-- Maximum frame/response buffer size in bytes (HM3301_MAX_READ_SIZE). -/
def HM3301_MAX_READ_SIZE : Nat := 48

/-- Sensor measures reliably up to 3000 ug/m3 (HM3301_MAX_PM). -/
def HM3301_MAX_PM : Nat := 3000

/-- Minimum self-cleaning period in seconds. -/
def HM3301_AUTO_CLEANING_PERIOD_MIN : Int := 0

/-- Maximum self-cleaning period in seconds. -/
def HM3301_AUTO_CLEANING_PERIOD_MAX : Int := 604800

/-- Command code: start measurement. -/
def HM3301_START_MEAS : Nat := 0x0010

/-- Command code: stop measurement. -/
def HM3301_STOP_MEAS : Nat := 0x0104

/-- Command code: device reset. -/
def HM3301_RESET : Nat := 0xd304

/-- Command code: read the data-ready flag. -/
def HM3301_READ_DATA_READY_FLAG : Nat := 0x0202

/-- Command code: read measurement data. -/
def HM3301_READ_DATA : Nat := 0x0300

/-- Command code: read the serial number. -/
def HM3301_READ_SERIAL : Nat := 0xd033

/-- Command code: start fan cleaning. -/
def HM3301_START_FAN_CLEANING : Nat := 0x5607

/-- Command code: write the auto cleaning period. -/
def HM3301_AUTO_CLEANING_PERIOD : Nat := 0x8004

/-- Pseudo command distinguishing the auto-cleaning-period read from the write. -/
def HM3301_READ_AUTO_CLEANING_PERIOD : Nat := 0x8005

/-- Device state RESET (enum value 0 in the C code). -/
def RESET : Nat := 0

/-- Device state MEASURING (enum value 1 in the C code). -/
def MEASURING : Nat := 1

/-- Errno EIO (the driver returns -Eio). -/
def Eio : Int := 5

/-- Errno ETIMEDOUT (the driver returns -Etimedout). -/
def Etimedout : Int := 110

/-- Errno EINVAL (the driver returns -Einval). -/
def Einval : Int := 22

/-- Initial value of the CRC-8 computation (CRC8_INIT_VALUE = 0xFF). -/
def CRC8_INIT_VALUE : Nat := 0xff

/-- One MSB-first CRC-8 shift step with polynomial HM3301_CRC8_POLYNOMIAL,
on an 8-bit accumulator. -/
def crc8_step (c : Nat) : Nat :=
  if 0x80 ≤ c % 0x100 then (c * 2) % 0x100 ^^^ HM3301_CRC8_POLYNOMIAL
  else (c * 2) % 0x100

/-- Iterate `crc8_step` n times. -/
def crc8_bits : Nat → Nat → Nat
  | 0, c => c
  | n + 1, c => crc8_bits n (crc8_step c)

/-- Process one data byte of the CRC-8: the table lookup
crc = hm3301_crc8_table[(crc ^ byte) & 0xff], where the table is built by
crc8_populate_msb(table, 0x31), i.e. table[x] is x run through 8 MSB-first
shift steps; the lookup is inlined here as those 8 steps. -/
def crc8_byte (c b : Nat) : Nat := crc8_bits 8 ((c ^^^ b) % 0x100)

/-- Models crc8(hm3301_crc8_table, data, nbytes, crc): fold `crc8_byte` over
the data bytes starting from the given initial value. -/
def crc8 (data : List Nat) (crc : Nat) : Nat := data.foldl crc8_byte crc

/-- Models get_unaligned_be32: interpret the first four bytes of the list as a
big-endian 32-bit integer. -/
def get_unaligned_be32 (b : List Nat) : Nat :=
  b.getD 0 0 * 0x1000000 + b.getD 1 0 * 0x10000 + b.getD 2 0 * 0x100 + b.getD 3 0

/-- Models put_unaligned_be32: the four big-endian bytes of a 32-bit value. -/
def put_unaligned_be32 (v : Nat) : List Nat :=
  [v / 0x1000000 % 0x100, v / 0x10000 % 0x100, v / 0x100 % 0x100, v % 0x100]

/-- Models the validation loop of hm3301_do_cmd (hm3301.c lines 143-155):
starting at byte index i, walk the received buffer in 3-byte groups while
i < size; recompute the CRC-8 of the two data bytes of each group and compare
it with the third byte; on mismatch stop with failure.  The returned list is
the sequence of data bytes copied to the caller's buffer (the C code copies
each validated word before checking the next group), and the Bool is true
iff every group validated. -/
def stripAux (buf : List Nat) (size : Nat) : Nat → Nat → List Nat × Bool
  | _, 0 => ([], true)
  | i, fuel + 1 =>
    if i < size then
      let b0 := buf.getD i 0
      let b1 := buf.getD (i + 1) 0
      if crc8 [b0, b1] CRC8_INIT_VALUE ≠ buf.getD (i + 2) 0 then ([], false)
      else
        let r := stripAux buf size (i + 3) fuel
        (b0 :: b1 :: r.1, r.2)
    else ([], true)

/-- Entry point of the validation loop: the structural fuel size - i bounds
the number of iterations (the index advances by 3 each round, so at most
size - i iterations run before i < size fails; when the fuel runs out the
loop guard i < size is already false and both return ([], true)). -/
def stripLoop (buf : List Nat) (i size : Nat) : List Nat × Bool :=
  stripAux buf size i (size - i)

/-- Models hm3301_float_to_int_clamped (hm3301.c lines 160-187): convert four
bytes holding a non-negative big-endian IEEE-754 single-precision value to a
fixed-point integer in hundredths, clamped at HM3301_MAX_PM * 100.
C bit operations are rendered arithmetically: mantissa = val & GENMASK(22,0)
is val % 2^23, exp = val >> 23 is val / 2^23 (the C comment notes the value is
always non-negative), 1 << exp is 2^exp, mantissa >> shift is
mantissa / 2^shift, mantissa & GENMASK(shift-1,0) is mantissa % 2^shift. -/
def hm3301_float_to_int_clamped (fp : List Nat) : Nat :=
  let val := get_unaligned_be32 fp
  let mantissa := val % 2 ^ 23
  let exp := val / 2 ^ 23
  if exp = 0 ∧ mantissa = 0 then 0
  else if exp < 127 then
    (2 ^ 23 + mantissa) * 100 / 2 ^ 23 / 2 ^ (127 - exp)
  else
    let shift := 23 - (exp - 127)
    let v := 2 ^ (exp - 127) + mantissa / 2 ^ shift
    if HM3301_MAX_PM ≤ v then HM3301_MAX_PM * 100
    else v * 100 + mantissa % 2 ^ shift * 100 / 2 ^ shift

/-- Result of one i2c bus transaction, scripted by the environment: `ok bytes`
means the transaction succeeded (for a receive, `bytes` is what the device
returned; for a send the field is ignored); `err e` means i2c_master_send /
i2c_master_recv did not transfer the requested count, with raw return value
`e` (negative errno, or a non-negative short count). -/
inductive TxnRes
  | ok (bytes : List Nat)
  | err (e : Int)
  deriving DecidableEq

/-- Observable event of a session: an issued bus send with the transmitted
bytes, an issued bus receive with the requested byte count, or a sleep with
its duration in milliseconds. -/
inductive Ev
  | tx (bytes : List Nat)
  | rx (n : Nat)
  | sleep (ms : Nat)
  deriving DecidableEq

/-- Session state: the transport oracle (behaviour of the n-th bus
transaction), the number of bus transactions issued so far, the event trace,
and the device-state field (state->state in struct hm3301_state). -/
structure Sess where
  dev : Nat → TxnRes
  txn : Nat
  evs : List Ev
  st : Nat

/-- Models msleep / msleep_interruptible: record the sleep in the trace. -/
def msleep (s : Sess) (ms : Nat) : Sess :=
  { s with evs := s.evs ++ [Ev.sleep ms] }

/-- Models hm3301_write_then_read (hm3301.c lines 67-88): issue a send of the
given bytes; on success, when a receive is wanted, issue a receive of rxsize
bytes.  A transaction that transfers the wrong count yields the raw return
value if negative, otherwise -Eio, exactly as in the C code.  Returns the
updated session, the received bytes ([] when none), and the return code. -/
def hm3301_write_then_read (s : Sess) (tx : List Nat) (wantRx : Bool)
    (rxsize : Nat) : Sess × List Nat × Int :=
  let res := s.dev s.txn
  let s := { s with txn := s.txn + 1, evs := s.evs ++ [Ev.tx tx] }
  match res with
  | TxnRes.err e => (s, [], if e < 0 then e else -Eio)
  | TxnRes.ok _ =>
    if !wantRx then (s, [], 0)
    else
      let res2 := s.dev s.txn
      let s := { s with txn := s.txn + 1, evs := s.evs ++ [Ev.rx rxsize] }
      match res2 with
      | TxnRes.err e => (s, [], if e < 0 then e else -Eio)
      | TxnRes.ok bytes =>
        if bytes.length = rxsize then (s, bytes, 0) else (s, [], -Eio)

/-- Shared epilogue of hm3301_do_cmd (hm3301.c lines 140-157): on a transport
error return it with the caller's data untouched; otherwise run the
validation loop over the received buffer and copy the validated data bytes
into the caller's buffer (overwriting its prefix), returning -Eio when a
checksum mismatched. -/
def hm3301_cmd_finish (s : Sess) (buf data : List Nat) (size : Nat)
    (ret : Int) : Sess × List Nat × Int :=
  if ret ≠ 0 then (s, data, ret)
  else
    let r := stripLoop buf 0 size
    (s, r.1 ++ data.drop r.1.length, if r.2 then 0 else -Eio)

/-- Shared read branch of hm3301_do_cmd (hm3301.c lines 118-128): every two
data bytes are checksummed, so the response length requested from the
transport is size + size / 2; the response is received into the frame buffer
and then validated/stripped. -/
def hm3301_cmd_read (s : Sess) (buf data : List Nat) (size : Nat) :
    Sess × List Nat × Int :=
  let size := size + size / 2
  let r := hm3301_write_then_read s (buf.take 2) true size
  let buf := r.2.1 ++ buf.drop r.2.1.length
  hm3301_cmd_finish r.1 buf data size r.2.2

/-- Models hm3301_do_cmd (hm3301.c lines 90-158): dispatch on the command
code, build and send the request frame (with per-word checksums for
payload-bearing commands), for read commands receive the inflated response
into the frame buffer, then validate and strip the checksums into the
caller's data buffer.  Returns the session, the caller's data buffer after
the call, and the return code. -/
def hm3301_do_cmd (s : Sess) (cmd : Nat) (data : List Nat) (size : Nat) :
    Sess × List Nat × Int :=
  let buf := [cmd / 0x100, cmd % 0x100] ++ List.replicate 46 0
  if cmd = HM3301_START_MEAS then
    let tx := [cmd / 0x100, cmd % 0x100, 0x03, 0x00,
               crc8 [0x03, 0x00] CRC8_INIT_VALUE]
    let r := hm3301_write_then_read s tx false 0
    hm3301_cmd_finish r.1 buf data size r.2.2
  else if cmd = HM3301_STOP_MEAS ∨ cmd = HM3301_RESET ∨
      cmd = HM3301_START_FAN_CLEANING then
    let r := hm3301_write_then_read s (buf.take 2) false 0
    hm3301_cmd_finish r.1 buf data size r.2.2
  else if cmd = HM3301_READ_AUTO_CLEANING_PERIOD then
    /- buf[0..1] are overwritten with HM3301_AUTO_CLEANING_PERIOD, then the
       code falls through into the read branch -/
    hm3301_cmd_read s ([HM3301_AUTO_CLEANING_PERIOD / 0x100,
      HM3301_AUTO_CLEANING_PERIOD % 0x100] ++ buf.drop 2) data size
  else if cmd = HM3301_READ_DATA_READY_FLAG ∨ cmd = HM3301_READ_DATA ∨
      cmd = HM3301_READ_SERIAL then
    hm3301_cmd_read s buf data size
  else if cmd = HM3301_AUTO_CLEANING_PERIOD then
    let b2 := data.getD 0 0
    let b3 := data.getD 1 0
    let b5 := data.getD 2 0
    let b6 := data.getD 3 0
    let tx := [cmd / 0x100, cmd % 0x100, b2, b3,
               crc8 [b2, b3] CRC8_INIT_VALUE, b5, b6,
               crc8 [b5, b6] CRC8_INIT_VALUE]
    let r := hm3301_write_then_read s tx false 0
    hm3301_cmd_finish r.1 buf data size r.2.2
  else
    hm3301_cmd_finish s buf data size 0

/-- Models the readiness-poll loop of hm3301_do_meas (hm3301.c lines
202-212), "while (tries--)": read the data-ready flag; on a command error
return -Eio; when byte 1 of the response is 1, stop successfully; otherwise
sleep 300 ms and retry.  Returns the session, the tmp buffer, whether the
tries were exhausted (tries reached -1), and the return code. -/
def hm3301_poll : Sess → List Nat → Nat → Sess × List Nat × Bool × Int
  | s, tmp, 0 => (s, tmp, true, 0)
  | s, tmp, n + 1 =>
    let r := hm3301_do_cmd s HM3301_READ_DATA_READY_FLAG tmp 2
    if r.2.2 ≠ 0 then (r.1, r.2.1, false, -Eio)
    else if r.2.1.getD 1 0 = 1 then (r.1, r.2.1, false, 0)
    else hm3301_poll (msleep r.1 300) r.2.1 n

/-- Body of hm3301_do_meas after the state check (hm3301.c lines 202-224):
poll readiness up to 5 times, fail with -Etimedout when exhausted, then read
sizeof(int) * size data bytes and decode each 4-byte group with
hm3301_float_to_int_clamped. -/
def hm3301_meas_body (s : Sess) (tmp : List Nat) (size : Nat) :
    Sess × List Nat × Int :=
  let p := hm3301_poll s tmp 5
  if p.2.2.2 ≠ 0 then (p.1, [], p.2.2.2)
  else if p.2.2.1 then (p.1, [], -Etimedout)
  else
    let r := hm3301_do_cmd p.1 HM3301_READ_DATA p.2.1 (4 * size)
    if r.2.2 ≠ 0 then (r.1, [], r.2.2)
    else
      (r.1, (List.range size).map
        (fun i => hm3301_float_to_int_clamped ((r.2.1.drop (4 * i)).take 4)), 0)

/-- Models hm3301_do_meas (hm3301.c lines 189-225): when the device state is
RESET, issue a start command first — on failure return its error with the
state unchanged, on success set the state to MEASURING — then poll readiness
and read/decode the measurements.  Returns the session, the decoded channel
values (empty on error; the C code leaves the caller's array untouched then),
and the return code. -/
def hm3301_do_meas (s : Sess) (size : Nat) : Sess × List Nat × Int :=
  let tmp : List Nat := List.replicate 16 0
  if s.st = RESET then
    let r := hm3301_do_cmd s HM3301_START_MEAS [] 0
    if r.2.2 ≠ 0 then (r.1, [], r.2.2)
    else hm3301_meas_body { r.1 with st := MEASURING } tmp size
  else hm3301_meas_body s tmp size

/-- Models hm3301_do_cmd_reset (hm3301.c lines 313-329): send the reset
command, sleep 300 ms, send a stop command purely to flush the post-reset bus
glitch (its result is ignored), set the device state to RESET unconditionally
and return the reset command's return code. -/
def hm3301_do_cmd_reset (s : Sess) : Sess × Int :=
  let r := hm3301_do_cmd s HM3301_RESET [] 0
  let s := msleep r.1 300
  let r2 := hm3301_do_cmd s HM3301_STOP_MEAS [] 0
  ({ r2.1 with st := RESET }, r.2.2)

/-- Models cleaning_period_store (hm3301.c lines 369-408) after kstrtoint:
`val` is the parsed integer (string parsing by kstrtoint is elided; a parse
failure yields the same -Einval as an out-of-range value).  Out-of-range
values are rejected with -Einval before any transport call; otherwise the
period is encoded big-endian and sent, the driver sleeps 20 ms and runs the
reset sequence (a reset failure is only logged), and the byte count `len` is
returned as success. -/
def cleaning_period_store (s : Sess) (val : Int) (len : Nat) : Sess × Int :=
  if val < HM3301_AUTO_CLEANING_PERIOD_MIN ∨
      HM3301_AUTO_CLEANING_PERIOD_MAX < val then (s, -Einval)
  else
    let tmp := put_unaligned_be32 val.toNat
    let r := hm3301_do_cmd s HM3301_AUTO_CLEANING_PERIOD tmp 0
    if r.2.2 ≠ 0 then (r.1, r.2.2)
    else
      let s := msleep r.1 20
      let r2 := hm3301_do_cmd_reset s
      (r2.1, (len : Int))

/-- Frame a byte sequence the way the sensor transmits data: after every two
data bytes, their CRC-8 (with CRC8_INIT_VALUE) is inserted. -/
def frameWords : List Nat → List Nat
  | a :: b :: rest => a :: b :: crc8 [a, b] CRC8_INIT_VALUE :: frameWords rest
  | l => l

/-- The group of the validation loop starting at byte index i validates:
the recomputed CRC-8 of the two data bytes equals the third byte. -/
def groupValid (buf : List Nat) (i : Nat) : Prop :=
  crc8 [buf.getD i 0, buf.getD (i + 1) 0] CRC8_INIT_VALUE = buf.getD (i + 2) 0

instance (buf : List Nat) (i : Nat) : Decidable (groupValid buf i) := by
  unfold groupValid
  infer_instance

/-- The data bytes of n consecutive 3-byte groups starting at byte index i,
checksum bytes stripped, in buffer order. -/
def dataOfGroups (buf : List Nat) (i : Nat) : Nat → List Nat
  | 0 => []
  | n + 1 => buf.getD i 0 :: buf.getD (i + 1) 0 :: dataOfGroups buf (i + 3) n

/-- Number of data-ready-flag read requests in a trace (sends of the
HM3301_READ_DATA_READY_FLAG command frame [0x02, 0x02]). -/
def countFlagReads (l : List Ev) : Nat :=
  (l.filter (fun e => e = Ev.tx [0x02, 0x02])).length

/-- Number of 300 ms sleeps in a trace. -/
def countSleeps300 (l : List Ev) : Nat :=
  (l.filter (fun e => e = Ev.sleep 300)).length

/-- Transport oracle for the readiness-polling scenarios: every send is
acknowledged and the j-th receive returns a correctly checksummed
data-ready-flag response with data bytes b0 j and b1 j. -/
def polldev (b0 b1 : Nat → Nat) : Nat → TxnRes := fun n =>
  if n % 2 = 0 then TxnRes.ok []
  else TxnRes.ok [b0 (n / 2), b1 (n / 2),
    crc8 [b0 (n / 2), b1 (n / 2)] CRC8_INIT_VALUE]

/-- Session in MEASURING state over a given transport oracle, with no
transactions issued yet and an empty trace. -/
def measSess (dev : Nat → TxnRes) : Sess := ⟨dev, 0, [], MEASURING⟩

/-- Session in the initial RESET state over a given transport oracle (the
probe function initialises state->state = RESET). -/
def resetSess (dev : Nat → TxnRes) : Sess := ⟨dev, 0, [], RESET⟩

/-- Transport script of the end-to-end measurement scenario: the start
command is acknowledged; the first data-ready-flag poll is acknowledged and
answers ready (data bytes [0x00, 0x01]); the data read is acknowledged and
answers the four big-endian IEEE-754 floats 12.34, 0.0, 3500.0 and 45.6,
framed with per-word checksums. -/
def e2eScript : List TxnRes :=
  [TxnRes.ok [], TxnRes.ok [], TxnRes.ok (frameWords [0x00, 0x01]),
   TxnRes.ok [],
   TxnRes.ok (frameWords
     [0x41, 0x45, 0x70, 0xA4, 0x00, 0x00, 0x00, 0x00,
      0x45, 0x5A, 0xC0, 0x00, 0x42, 0x36, 0x66, 0x66])]

/-- Session for the end-to-end measurement scenario, starting from RESET. -/
def e2eSess : Sess := resetSess (fun n => e2eScript.getD n (TxnRes.err (-5)))

/-- Bound on the fractional contribution of the decoder: scaling fewer than
2^s mantissa bits to hundredths and shifting back down yields at most 99. -/
theorem hm3301_frac_bound (m s : Nat) : m % 2 ^ s * 100 / 2 ^ s ≤ 99 := by
  have hpos : 0 < 2 ^ s := Nat.pos_pow_of_pos s (by norm_num)
  have hlt : m % 2 ^ s < 2 ^ s := Nat.mod_lt _ hpos
  have h : m % 2 ^ s * 100 < 100 * 2 ^ s := by nlinarith
  have h2 : m % 2 ^ s * 100 / 2 ^ s < 100 := (Nat.div_lt_iff_lt_mul hpos).mpr h
  omega

/-- Bound on the sub-1.0 branch of the decoder: the scaled fraction is at
most 199 and the extra shift by at least one halves it to at most 99. -/
theorem hm3301_low_branch_le (m e : Nat) (hm : m < 2 ^ 23) (he : e < 127) :
    (2 ^ 23 + m) * 100 / 2 ^ 23 / 2 ^ (127 - e) ≤ 99 := by
  have h23 : (2 : Nat) ^ 23 = 8388608 := by norm_num
  have h1 : (2 ^ 23 + m) * 100 / 2 ^ 23 ≤ 199 := by
    have hle : (2 ^ 23 + m) * 100 ≤ 1677721500 := by omega
    have hdd : (2 ^ 23 + m) * 100 / 2 ^ 23 ≤ 1677721500 / 2 ^ 23 :=
      Nat.div_le_div_right hle
    have hv : (1677721500 : Nat) / 2 ^ 23 = 199 := by norm_num
    omega
  have h2 : (2 ^ 23 + m) * 100 / 2 ^ 23 / 2 ^ (127 - e) ≤
      (2 ^ 23 + m) * 100 / 2 ^ 23 / 2 := by
    refine Nat.div_le_div_left ?_ (by norm_num)
    calc (2 : Nat) = 2 ^ 1 := by norm_num
    _ ≤ 2 ^ (127 - e) := Nat.pow_le_pow_right (by norm_num) (by omega)
  have h3 : (2 ^ 23 + m) * 100 / 2 ^ 23 / 2 ≤ 99 := by omega
  omega

/-- Claim C2: for every 4-byte input the decoder result never exceeds
300000, and for every input whose biased exponent is at least 127 and whose
reconstructed integer part 2^(e-127) + mantissa / 2^(23-(e-127)) reaches
HM3301_MAX_PM, the decoder returns exactly 300000. -/
theorem hm3301_decode_clamp_bound (fp : List Nat) :
    hm3301_float_to_int_clamped fp ≤ 300000 ∧
    (∀ e m, e = get_unaligned_be32 fp / 2 ^ 23 →
      m = get_unaligned_be32 fp % 2 ^ 23 →
      127 ≤ e → HM3301_MAX_PM ≤ 2 ^ (e - 127) + m / 2 ^ (23 - (e - 127)) →
      hm3301_float_to_int_clamped fp = 300000) := by
  have hm : get_unaligned_be32 fp % 2 ^ 23 < 2 ^ 23 :=
    Nat.mod_lt _ (Nat.pos_pow_of_pos 23 (by norm_num))
  constructor
  · simp only [hm3301_float_to_int_clamped]
    split_ifs with h1 h2 h3
    · omega
    · exact le_trans (hm3301_low_branch_le _ _ hm (by omega)) (by norm_num)
    · norm_num [HM3301_MAX_PM]
    · have hv : ¬ HM3301_MAX_PM ≤
          2 ^ (get_unaligned_be32 fp / 2 ^ 23 - 127) +
            get_unaligned_be32 fp % 2 ^ 23 /
              2 ^ (23 - (get_unaligned_be32 fp / 2 ^ 23 - 127)) := h3
      have hfrac := hm3301_frac_bound (get_unaligned_be32 fp % 2 ^ 23)
        (23 - (get_unaligned_be32 fp / 2 ^ 23 - 127))
      simp only [HM3301_MAX_PM] at hv
      omega
  · intro e m hedef hmdef hge hclamp
    simp only [hm3301_float_to_int_clamped]
    rw [if_neg (by omega), if_neg (by omega),
      if_pos (by rw [← hedef, ← hmdef]; exact hclamp)]
    norm_num [HM3301_MAX_PM]

/-- Claim C3 counterexample: the input 0x3C000000 (the float 2^-7 = 0.0078125)
is non-zero and has a negative unbiased exponent (biased exponent 120 < 127),
but the decoder returns 0, outside the claimed range 1 to 99. -/
theorem hm3301_decode_fraction_cex :
    get_unaligned_be32 [0x3C, 0x00, 0x00, 0x00] ≠ 0 ∧
    get_unaligned_be32 [0x3C, 0x00, 0x00, 0x00] / 2 ^ 23 < 127 ∧
    hm3301_float_to_int_clamped [0x3C, 0x00, 0x00, 0x00] = 0 := by decide

/-- Claim C3 (amended): for every non-zero 4-byte input with a negative
unbiased exponent the decoder computes (((1<<23)+mantissa)*100) >> 23 and
then right-shifts by -e, the result lies in the range 0 to 99 (inputs below
2^-6 decode to 0, so 1 is not a lower bound), and the bit pattern for 0.5
decodes to 50. -/
theorem hm3301_decode_fraction (fp : List Nat)
    (hnz : ¬(get_unaligned_be32 fp / 2 ^ 23 = 0 ∧
      get_unaligned_be32 fp % 2 ^ 23 = 0))
    (he : get_unaligned_be32 fp / 2 ^ 23 < 127) :
    hm3301_float_to_int_clamped fp =
      (2 ^ 23 + get_unaligned_be32 fp % 2 ^ 23) * 100 / 2 ^ 23 /
        2 ^ (127 - get_unaligned_be32 fp / 2 ^ 23) ∧
    hm3301_float_to_int_clamped fp ≤ 99 ∧
    hm3301_float_to_int_clamped [0x3F, 0x00, 0x00, 0x00] = 50 := by
  have hm : get_unaligned_be32 fp % 2 ^ 23 < 2 ^ 23 :=
    Nat.mod_lt _ (Nat.pos_pow_of_pos 23 (by norm_num))
  have heq : hm3301_float_to_int_clamped fp =
      (2 ^ 23 + get_unaligned_be32 fp % 2 ^ 23) * 100 / 2 ^ 23 /
        2 ^ (127 - get_unaligned_be32 fp / 2 ^ 23) := by
    simp only [hm3301_float_to_int_clamped]
    rw [if_neg hnz, if_pos he]
  refine ⟨heq, ?_, by decide⟩
  rw [heq]
  exact hm3301_low_branch_le _ _ hm he

/-- Claim C3 witness: the amended theorem applied to the bit pattern of 0.5
(0x3F000000), whose decode is 50. -/
theorem hm3301_decode_fraction_witness :
    ¬(get_unaligned_be32 [0x3F, 0x00, 0x00, 0x00] / 2 ^ 23 = 0 ∧
      get_unaligned_be32 [0x3F, 0x00, 0x00, 0x00] % 2 ^ 23 = 0) ∧
    (hm3301_float_to_int_clamped [0x3F, 0x00, 0x00, 0x00] =
      (2 ^ 23 + get_unaligned_be32 [0x3F, 0x00, 0x00, 0x00] % 2 ^ 23) * 100 /
        2 ^ 23 /
        2 ^ (127 - get_unaligned_be32 [0x3F, 0x00, 0x00, 0x00] / 2 ^ 23) ∧
    hm3301_float_to_int_clamped [0x3F, 0x00, 0x00, 0x00] ≤ 99 ∧
    hm3301_float_to_int_clamped [0x3F, 0x00, 0x00, 0x00] = 50) :=
  ⟨by decide, hm3301_decode_fraction _ (by decide) (by decide)⟩

/-- Claim C2 witness: the clamp conjunct applied to the bit pattern of
3500.0 (0x455AC000), whose reconstructed integer part is 3500 ≥ 3000. -/
theorem hm3301_decode_clamp_bound_witness :
    127 ≤ get_unaligned_be32 [0x45, 0x5A, 0xC0, 0x00] / 2 ^ 23 ∧
    HM3301_MAX_PM ≤
      2 ^ (get_unaligned_be32 [0x45, 0x5A, 0xC0, 0x00] / 2 ^ 23 - 127) +
        get_unaligned_be32 [0x45, 0x5A, 0xC0, 0x00] % 2 ^ 23 /
          2 ^ (23 - (get_unaligned_be32 [0x45, 0x5A, 0xC0, 0x00] / 2 ^ 23 -
            127)) ∧
    hm3301_float_to_int_clamped [0x45, 0x5A, 0xC0, 0x00] = 300000 :=
  ⟨by decide, by decide,
    (hm3301_decode_clamp_bound [0x45, 0x5A, 0xC0, 0x00]).2 _ _ rfl rfl
      (by decide) (by decide)⟩

/-- When every group from byte index i on validates, the validation loop
succeeds and yields the data bytes of all its groups (fuel at least
size - i suffices, as the loop runs at most that many rounds). -/
theorem stripAux_all_valid (buf : List Nat) (size : Nat) :
    ∀ fuel i, size ≤ i + fuel →
    (∀ j, i + 3 * j < size → groupValid buf (i + 3 * j)) →
    stripAux buf size i fuel =
      (dataOfGroups buf i ((size - i + 2) / 3), true) := by
  intro fuel
  induction fuel with
  | zero =>
    intro i hf _
    have hz : (size - i + 2) / 3 = 0 := by omega
    simp [stripAux, hz, dataOfGroups]
  | succ f ih =>
    intro i hf hv
    by_cases hlt : i < size
    · have hv0 : groupValid buf i := by
        have h0 := hv 0 (by omega)
        simpa using h0
      have hcount : (size - i + 2) / 3 = (size - (i + 3) + 2) / 3 + 1 := by
        omega
      have hrec := ih (i + 3) (by omega) (fun j hj => by
        have h1 : i + 3 + 3 * j = i + 3 * (j + 1) := by ring
        rw [h1] at hj ⊢
        exact hv (j + 1) hj)
      rw [hcount]
      simp only [stripAux, if_pos hlt, dataOfGroups]
      rw [if_neg (by simpa [groupValid] using hv0), hrec]
    · have hz : (size - i + 2) / 3 = 0 := by omega
      simp [stripAux, if_neg hlt, hz, dataOfGroups]

/-- When the groups before group k validate and group k (still inside the
buffer) does not, the validation loop fails, and the data bytes of the k
validated groups are what was copied out before the mismatch. -/
theorem stripAux_first_invalid (buf : List Nat) (size : Nat) :
    ∀ k fuel i, size ≤ i + fuel →
    (∀ j, j < k → groupValid buf (i + 3 * j)) →
    i + 3 * k < size → ¬groupValid buf (i + 3 * k) →
    stripAux buf size i fuel = (dataOfGroups buf i k, false) := by
  intro k
  induction k with
  | zero =>
    intro fuel i hf _ hlt hbad
    simp only [Nat.mul_zero, Nat.add_zero] at hlt hbad
    cases fuel with
    | zero => omega
    | succ f =>
      simp only [stripAux, if_pos hlt, dataOfGroups]
      rw [if_pos (by simpa [groupValid] using hbad)]
  | succ kk ih =>
    intro fuel i hf hv hlt hbad
    have hlt0 : i < size := by omega
    cases fuel with
    | zero => omega
    | succ f =>
      have hv0 : groupValid buf i := by
        have h0 := hv 0 (by omega)
        simpa using h0
      have hrec := ih f (i + 3) (by omega)
        (fun j hj => by
          have h1 : i + 3 + 3 * j = i + 3 * (j + 1) := by ring
          rw [h1]
          exact hv (j + 1) (by omega))
        (by have h1 : i + 3 + 3 * kk = i + 3 * (kk + 1) := by ring
            omega)
        (by have h1 : i + 3 + 3 * kk = i + 3 * (kk + 1) := by ring
            rw [h1]
            exact hbad)
      simp only [stripAux, if_pos hlt0, dataOfGroups]
      rw [if_neg (by simpa [groupValid] using hv0), hrec]

/-- Claim C1 (amended): response decoding walks the received buffer in 3-byte
groups of 2 data bytes and 1 checksum byte (data_size + data_size / 2 bytes
in all), recomputing each group's checksum; when every group validates it
succeeds with exactly the data bytes, checksums stripped, in original order;
on the first mismatching group it fails the whole operation, but the data
bytes of the groups validated before the mismatch have already been copied
into the caller's buffer, so the caller's output buffer is not necessarily
unchanged on error (the epilogue overwrites the buffer prefix with the bytes
copied out before the failure in both outcomes). -/
theorem hm3301_decode_response (buf : List Nat) (data_size : Nat) :
    ((∀ j, 3 * j < data_size + data_size / 2 → groupValid buf (3 * j)) →
      stripLoop buf 0 (data_size + data_size / 2) =
        (dataOfGroups buf 0 ((data_size + data_size / 2 + 2) / 3), true)) ∧
    (∀ k, (∀ j, j < k → groupValid buf (3 * j)) →
      3 * k < data_size + data_size / 2 → ¬groupValid buf (3 * k) →
      stripLoop buf 0 (data_size + data_size / 2) =
        (dataOfGroups buf 0 k, false)) ∧
    (∀ s data,
      hm3301_cmd_finish s buf data (data_size + data_size / 2) 0 =
        (s, (stripLoop buf 0 (data_size + data_size / 2)).1 ++
          data.drop (stripLoop buf 0 (data_size + data_size / 2)).1.length,
          if (stripLoop buf 0 (data_size + data_size / 2)).2 then 0
          else -Eio)) := by
  refine ⟨?_, ?_, ?_⟩
  · intro hv
    have h := stripAux_all_valid buf (data_size + data_size / 2)
      (data_size + data_size / 2) 0 (by omega)
      (fun j hj => by simpa using hv j (by simpa using hj))
    simpa [stripLoop] using h
  · intro k hv hlt hbad
    have h := stripAux_first_invalid buf (data_size + data_size / 2) k
      (data_size + data_size / 2) 0 (by omega)
      (fun j hj => by simpa using hv j hj)
      (by simpa using hlt) (by simpa using hbad)
    simpa [stripLoop] using h
  · intro s data
    simp [hm3301_cmd_finish]

/-- Transport oracle for the C1 counterexample: the send is acknowledged and
the receive returns two 3-byte groups, the first correctly checksummed, the
second with a corrupted checksum byte. -/
def c1dev : Nat → TxnRes := fun n =>
  if n = 0 then TxnRes.ok []
  else TxnRes.ok [7, 8, crc8 [7, 8] CRC8_INIT_VALUE, 9, 10,
    (crc8 [9, 10] CRC8_INIT_VALUE + 1) % 256]

/-- Claim C1 counterexample: reading the auto-cleaning period (4 data bytes)
over a transport whose response has a valid first group and a corrupted
second group fails with -Eio, yet the caller's data buffer [1, 2, 3, 4] has
been partially overwritten (to [7, 8, 3, 4]), refuting "the caller's output
buffer is unchanged on error". -/
theorem hm3301_decode_response_cex :
    (hm3301_do_cmd (measSess c1dev) HM3301_READ_AUTO_CLEANING_PERIOD
      [1, 2, 3, 4] 4).2.2 = -Eio ∧
    (hm3301_do_cmd (measSess c1dev) HM3301_READ_AUTO_CLEANING_PERIOD
      [1, 2, 3, 4] 4).2.1 = [7, 8, 3, 4] ∧
    (hm3301_do_cmd (measSess c1dev) HM3301_READ_AUTO_CLEANING_PERIOD
      [1, 2, 3, 4] 4).2.1 ≠ [1, 2, 3, 4] := by decide

/-- Claim C1 witness: the success conjunct applied to a fully valid 2-group
buffer, and the failure conjunct applied to a buffer whose second group has
checksum byte 0. -/
theorem hm3301_decode_response_witness :
    stripLoop (frameWords [1, 2, 3, 4]) 0 (4 + 4 / 2) =
      (dataOfGroups (frameWords [1, 2, 3, 4]) 0 ((4 + 4 / 2 + 2) / 3),
        true) ∧
    stripLoop [7, 8, crc8 [7, 8] CRC8_INIT_VALUE, 9, 10, 0] 0 (4 + 4 / 2) =
      (dataOfGroups [7, 8, crc8 [7, 8] CRC8_INIT_VALUE, 9, 10, 0] 0 1,
        false) :=
  ⟨(hm3301_decode_response (frameWords [1, 2, 3, 4]) 4).1
      (fun j hj => by
        have hj2 : j = 0 ∨ j = 1 := by omega
        rcases hj2 with h | h <;> subst h <;> decide),
    (hm3301_decode_response [7, 8, crc8 [7, 8] CRC8_INIT_VALUE, 9, 10, 0]
      4).2.1 1
      (fun j hj => by
        have hj2 : j = 0 := by omega
        subst hj2
        decide)
      (by decide) (by decide)⟩

/-- Claim C8: encoding a cleaning period p ∈ [0, 604800] big-endian, framing
it as two checksummed 2-byte words exactly as the write command does, then
running the response validation loop over those bytes recovers the 4 data
bytes with checksums stripped, and reading them back big-endian recovers p
exactly. -/
theorem hm3301_period_roundtrip (p : Nat) (hp : p ≤ 604800) :
    stripLoop (frameWords (put_unaligned_be32 p)) 0 6 =
      (put_unaligned_be32 p, true) ∧
    get_unaligned_be32 (put_unaligned_be32 p) = p := by
  constructor
  · simp [stripLoop, stripAux, frameWords, put_unaligned_be32, List.getD]
  · simp only [get_unaligned_be32, put_unaligned_be32, List.getD, List.get?,
      Option.getD_some]
    omega

/-- Claim C8 witness: the round trip at the maximum period 604800. -/
theorem hm3301_period_roundtrip_witness :
    (604800 : Nat) ≤ 604800 ∧
    (stripLoop (frameWords (put_unaligned_be32 604800)) 0 6 =
      (put_unaligned_be32 604800, true) ∧
    get_unaligned_be32 (put_unaligned_be32 604800) = 604800) :=
  ⟨by decide, hm3301_period_roundtrip 604800 (by decide)⟩

/-- The command epilogue never changes the session (it only validates the
buffer and produces the caller-visible data and return code). -/
theorem cmd_finish_sess (s : Sess) (buf data : List Nat) (size : Nat)
    (ret : Int) : (hm3301_cmd_finish s buf data size ret).1 = s := by
  unfold hm3301_cmd_finish
  split <;> rfl

/-- With size 0 the validation loop never runs, so the command epilogue
leaves the caller's data buffer unchanged whatever the return code. -/
theorem cmd_finish_size_zero (s : Sess) (buf data : List Nat) (ret : Int) :
    (hm3301_cmd_finish s buf data 0 ret).2.1 = data := by
  unfold hm3301_cmd_finish
  split
  · rfl
  · simp [stripLoop, stripAux]

/-- Claim C10: no write-only command (start, stop, reset, fan cleaning, or
the auto-cleaning-period write, all invoked with size 0) ever writes through
the caller's data pointer: the caller's data buffer is returned unchanged
whether the command succeeds or fails, for every transport behaviour. -/
theorem hm3301_write_cmd_data_unchanged (s : Sess) (cmd : Nat)
    (data : List Nat)
    (h : cmd = HM3301_START_MEAS ∨ cmd = HM3301_STOP_MEAS ∨
      cmd = HM3301_RESET ∨ cmd = HM3301_START_FAN_CLEANING ∨
      cmd = HM3301_AUTO_CLEANING_PERIOD) :
    (hm3301_do_cmd s cmd data 0).2.1 = data := by
  rcases h with h | h | h | h | h <;> subst h <;>
    simp only [hm3301_do_cmd, HM3301_START_MEAS, HM3301_STOP_MEAS,
      HM3301_RESET, HM3301_START_FAN_CLEANING, HM3301_AUTO_CLEANING_PERIOD,
      HM3301_READ_AUTO_CLEANING_PERIOD, HM3301_READ_DATA_READY_FLAG,
      HM3301_READ_DATA, HM3301_READ_SERIAL] <;>
    norm_num <;>
    exact cmd_finish_size_zero _ _ _ _

/-- Claim C10 witness: the reset command over the C1 transport oracle leaves
the caller's buffer [1, 2] untouched. -/
theorem hm3301_write_cmd_data_unchanged_witness :
    (HM3301_RESET = HM3301_START_MEAS ∨ HM3301_RESET = HM3301_STOP_MEAS ∨
      HM3301_RESET = HM3301_RESET ∨
      HM3301_RESET = HM3301_START_FAN_CLEANING ∨
      HM3301_RESET = HM3301_AUTO_CLEANING_PERIOD) ∧
    (hm3301_do_cmd (measSess c1dev) HM3301_RESET [1, 2] 0).2.1 = [1, 2] :=
  ⟨by decide,
    hm3301_write_cmd_data_unchanged (measSess c1dev) HM3301_RESET [1, 2]
      (by decide)⟩

/-- The events of the shared read branch: the 2-byte command frame is always
sent; when the send succeeds a receive of exactly size + size / 2 bytes is
requested; no other event is recorded. -/
theorem cmd_read_evs (s : Sess) (buf data : List Nat) (size : Nat) :
    (hm3301_cmd_read s buf data size).1.evs =
      s.evs ++ [Ev.tx (buf.take 2)] ∨
    (hm3301_cmd_read s buf data size).1.evs =
      s.evs ++ [Ev.tx (buf.take 2), Ev.rx (size + size / 2)] := by
  simp only [hm3301_cmd_read, hm3301_write_then_read]
  rcases hdev : s.dev s.txn with b | e
  · rcases hdev2 : s.dev (s.txn + 1) with b2 | e2
    · by_cases hlen : b2.length = size + size / 2 <;>
        simp [hdev, hdev2, hlen, cmd_finish_sess]
    · simp [hdev, hdev2, cmd_finish_sess]
  · simp [hdev, cmd_finish_sess]

/-- Claim C9: for every read-style command the byte count requested from the
transport receive equals size + size / 2 (the only events a read command
adds are its send and, when the send succeeded, that one receive), and for
each data size the driver issues (2 for the ready flag, 4 for the cleaning
period, 4 to 16 for measurement data, 32 for the serial number) the inflated
count stays within the 48-byte frame buffer HM3301_MAX_READ_SIZE. -/
theorem hm3301_read_size_inflation (s : Sess) (cmd : Nat) (data : List Nat)
    (size : Nat)
    (h : cmd = HM3301_READ_DATA_READY_FLAG ∨ cmd = HM3301_READ_DATA ∨
      cmd = HM3301_READ_SERIAL ∨ cmd = HM3301_READ_AUTO_CLEANING_PERIOD) :
    (∃ t, (hm3301_do_cmd s cmd data size).1.evs = s.evs ++ [Ev.tx t] ∨
      (hm3301_do_cmd s cmd data size).1.evs =
        s.evs ++ [Ev.tx t, Ev.rx (size + size / 2)]) ∧
    2 + 2 / 2 ≤ HM3301_MAX_READ_SIZE ∧ 4 + 4 / 2 ≤ HM3301_MAX_READ_SIZE ∧
    8 + 8 / 2 ≤ HM3301_MAX_READ_SIZE ∧ 12 + 12 / 2 ≤ HM3301_MAX_READ_SIZE ∧
    16 + 16 / 2 ≤ HM3301_MAX_READ_SIZE ∧
    32 + 32 / 2 ≤ HM3301_MAX_READ_SIZE := by
  refine ⟨?_, by decide, by decide, by decide, by decide, by decide,
    by decide⟩
  rcases h with h | h | h | h <;> subst h <;>
    simp only [hm3301_do_cmd, HM3301_START_MEAS, HM3301_STOP_MEAS,
      HM3301_RESET, HM3301_START_FAN_CLEANING, HM3301_AUTO_CLEANING_PERIOD,
      HM3301_READ_AUTO_CLEANING_PERIOD, HM3301_READ_DATA_READY_FLAG,
      HM3301_READ_DATA, HM3301_READ_SERIAL] <;>
    norm_num <;>
    exact ⟨_, cmd_read_evs _ _ _ _⟩

/-- Claim C9 witness: the serial-number read (32 data bytes) over the C1
transport oracle records a receive request of exactly 48 bytes. -/
theorem hm3301_read_size_inflation_witness :
    (HM3301_READ_SERIAL = HM3301_READ_DATA_READY_FLAG ∨
      HM3301_READ_SERIAL = HM3301_READ_DATA ∨
      HM3301_READ_SERIAL = HM3301_READ_SERIAL ∨
      HM3301_READ_SERIAL = HM3301_READ_AUTO_CLEANING_PERIOD) ∧
    ((∃ t, (hm3301_do_cmd (measSess c1dev) HM3301_READ_SERIAL [] 32).1.evs =
        (measSess c1dev).evs ++ [Ev.tx t] ∨
      (hm3301_do_cmd (measSess c1dev) HM3301_READ_SERIAL [] 32).1.evs =
        (measSess c1dev).evs ++ [Ev.tx t, Ev.rx (32 + 32 / 2)]) ∧
    2 + 2 / 2 ≤ HM3301_MAX_READ_SIZE ∧ 4 + 4 / 2 ≤ HM3301_MAX_READ_SIZE ∧
    8 + 8 / 2 ≤ HM3301_MAX_READ_SIZE ∧ 12 + 12 / 2 ≤ HM3301_MAX_READ_SIZE ∧
    16 + 16 / 2 ≤ HM3301_MAX_READ_SIZE ∧
    32 + 32 / 2 ≤ HM3301_MAX_READ_SIZE) :=
  ⟨by decide,
    hm3301_read_size_inflation (measSess c1dev) HM3301_READ_SERIAL [] 32
      (by decide)⟩

/-- Claim C7 counterexample: with a transport answering valid checksummed
frames for the floats 12.34, 0.0, 3500.0 and 45.6, read_measurement succeeds
but does not yield [1234, 0, 300000, 4560]: the truncating decoder maps
45.6 (0x42366666) to 4559. -/
theorem hm3301_e2e_cex :
    (hm3301_do_meas e2eSess 4).2.2 = 0 ∧
    (hm3301_do_meas e2eSess 4).2.1 ≠ [1234, 0, 300000, 4560] := by decide

/-- Claim C7 (amended): with a transport answering valid checksummed frames
for the big-endian IEEE-754 floats 12.34, 0.0, 3500.0 and 45.6,
read_measurement succeeds and yields exactly the sample values 1234, 0,
300000 and 4559 (hundredths, the fourth channel truncated down by the
bit-shift rounding), with the third channel clamped. -/
theorem hm3301_e2e :
    (hm3301_do_meas e2eSess 4).2.1 = [1234, 0, 300000, 4559] ∧
    (hm3301_do_meas e2eSess 4).2.2 = 0 ∧
    (hm3301_do_meas e2eSess 4).1.st = MEASURING := by decide

/-- A send with no receive advances the session by exactly one transaction
and one tx event, whatever the oracle answers. -/
theorem wtr_sess_noRx (s : Sess) (t : List Nat) (r : Nat) :
    (hm3301_write_then_read s t false r).1 =
      { s with txn := s.txn + 1, evs := s.evs ++ [Ev.tx t] } := by
  simp only [hm3301_write_then_read]
  rcases hdev : s.dev s.txn with b | e <;> simp [hdev]

/-- The transport layer never touches the device-state field. -/
theorem wtr_st (s : Sess) (t : List Nat) (w : Bool) (r : Nat) :
    (hm3301_write_then_read s t w r).1.st = s.st := by
  simp only [hm3301_write_then_read]
  rcases hdev : s.dev s.txn with b | e
  · rcases w with _ | _
    · simp [hdev]
    · rcases hdev2 : s.dev (s.txn + 1) with b2 | e2
      · by_cases hlen : b2.length = r <;> simp [hdev, hdev2, hlen]
      · simp [hdev, hdev2]
  · simp [hdev]

/-- The read branch never touches the device-state field. -/
theorem cmd_read_st (s : Sess) (buf data : List Nat) (size : Nat) :
    (hm3301_cmd_read s buf data size).1.st = s.st := by
  simp only [hm3301_cmd_read]
  rw [cmd_finish_sess]
  exact wtr_st _ _ _ _

/-- Command dispatch never touches the device-state field: only the
measurement and reset sequences assign state->state. -/
theorem do_cmd_st (s : Sess) (cmd : Nat) (data : List Nat) (size : Nat) :
    (hm3301_do_cmd s cmd data size).1.st = s.st := by
  simp only [hm3301_do_cmd]
  split_ifs <;>
    first
      | (rw [cmd_finish_sess]; exact wtr_st _ _ _ _)
      | exact cmd_read_st _ _ _ _
      | rw [cmd_finish_sess]

/-- Sleeping never touches the device-state field. -/
theorem msleep_st (s : Sess) (ms : Nat) : (msleep s ms).st = s.st := rfl

/-- The readiness-poll loop never touches the device-state field. -/
theorem poll_st : ∀ (n : Nat) (s : Sess) (tmp : List Nat),
    (hm3301_poll s tmp n).1.st = s.st := by
  intro n
  induction n with
  | zero => intro s tmp; rfl
  | succ m ih =>
    intro s tmp
    simp only [hm3301_poll]
    split_ifs
    · exact do_cmd_st _ _ _ _
    · exact do_cmd_st _ _ _ _
    · rw [ih, msleep_st]
      exact do_cmd_st _ _ _ _

/-- The measurement body (poll, read, decode) never touches the device-state
field. -/
theorem meas_body_st (s : Sess) (tmp : List Nat) (size : Nat) :
    (hm3301_meas_body s tmp size).1.st = s.st := by
  simp only [hm3301_meas_body]
  split_ifs
  · exact poll_st _ _ _
  · exact poll_st _ _ _
  · rw [do_cmd_st]
    exact poll_st _ _ _
  · rw [do_cmd_st]
    exact poll_st _ _ _

/-- Start-measurement command when the transport send fails: one transaction
is issued and the raw error maps to itself when negative, -Eio otherwise. -/
theorem do_cmd_start_meas_err (s : Sess) (e : Int)
    (hdev : s.dev s.txn = TxnRes.err e) :
    hm3301_do_cmd s HM3301_START_MEAS [] 0 =
      ({ s with
         txn := s.txn + 1,
         evs := s.evs ++ [Ev.tx [0x00, 0x10, 0x03, 0x00,
           crc8 [0x03, 0x00] CRC8_INIT_VALUE]] }, [],
       if e < 0 then e else -Eio) := by
  have hne : (if e < 0 then e else -Eio) ≠ 0 := by
    split_ifs with he
    · omega
    · decide
  simp only [hm3301_do_cmd, hm3301_write_then_read, hm3301_cmd_finish,
    HM3301_START_MEAS]
  norm_num
  simp [hdev, hne]

/-- Start-measurement command when the transport send succeeds. -/
theorem do_cmd_start_meas_ok (s : Sess) (l : List Nat)
    (hdev : s.dev s.txn = TxnRes.ok l) :
    hm3301_do_cmd s HM3301_START_MEAS [] 0 =
      ({ s with
         txn := s.txn + 1,
         evs := s.evs ++ [Ev.tx [0x00, 0x10, 0x03, 0x00,
           crc8 [0x03, 0x00] CRC8_INIT_VALUE]] }, [], 0) := by
  simp only [hm3301_do_cmd, hm3301_write_then_read, hm3301_cmd_finish,
    HM3301_START_MEAS]
  norm_num
  simp [hdev, stripLoop, stripAux]

/-- Claim C5: the device-state lifecycle.  The initial session state is
RESET; command dispatch itself never changes the state field; when the state
is RESET and the start command's send fails, read_measurement returns that
error and the state stays RESET; when the start send is acknowledged the
state becomes (and remains) MEASURING for the rest of the call, whatever the
transport does afterwards; and the reset sequence sets the state to RESET
unconditionally while returning exactly the reset command's own return code
(the stop-flush result is discarded, a stop-flush failure is ignored). -/
theorem hm3301_state_lifecycle :
    (∀ dev, (resetSess dev).st = RESET) ∧
    (∀ s cmd data size, (hm3301_do_cmd s cmd data size).1.st = s.st) ∧
    (∀ s size e, s.st = RESET → s.dev s.txn = TxnRes.err e →
      (hm3301_do_meas s size).1.st = RESET ∧
      (hm3301_do_meas s size).2.2 = (if e < 0 then e else -Eio)) ∧
    (∀ s size l, s.st = RESET → s.dev s.txn = TxnRes.ok l →
      (hm3301_do_meas s size).1.st = MEASURING) ∧
    (∀ s, (hm3301_do_cmd_reset s).1.st = RESET ∧
      (hm3301_do_cmd_reset s).2 = (hm3301_do_cmd s HM3301_RESET [] 0).2.2) := by
  refine ⟨fun dev => rfl, do_cmd_st, ?_, ?_, fun s => ⟨rfl, rfl⟩⟩
  · intro s size e hst hdev
    have hne : (if e < 0 then e else -Eio) ≠ 0 := by
      split_ifs with he
      · omega
      · decide
    simp only [hm3301_do_meas, if_pos hst, do_cmd_start_meas_err s e hdev]
    simp [hne, hst]
  · intro s size l hst hdev
    simp only [hm3301_do_meas, if_pos hst, do_cmd_start_meas_ok s l hdev]
    norm_num
    rw [meas_body_st]

/-- Transport oracle failing every transaction with -19 (ENODEV). -/
def c5errDev : Nat → TxnRes := fun _ => TxnRes.err (-19)

/-- Transport oracle acknowledging every transaction with an empty payload. -/
def c5okDev : Nat → TxnRes := fun _ => TxnRes.ok []

/-- Claim C5 witness: from the initial RESET state, a failing start leaves
the state RESET and surfaces -19; an acknowledged start switches the state
to MEASURING; the reset sequence over an arbitrary oracle ends in RESET with
the reset command's own return code. -/
theorem hm3301_state_lifecycle_witness :
    (resetSess c5errDev).st = RESET ∧
    ((hm3301_do_meas (resetSess c5errDev) 4).1.st = RESET ∧
      (hm3301_do_meas (resetSess c5errDev) 4).2.2 =
        (if (-19 : Int) < 0 then (-19 : Int) else -Eio)) ∧
    (hm3301_do_meas (resetSess c5okDev) 4).1.st = MEASURING ∧
    ((hm3301_do_cmd_reset (measSess c1dev)).1.st = RESET ∧
      (hm3301_do_cmd_reset (measSess c1dev)).2 =
        (hm3301_do_cmd (measSess c1dev) HM3301_RESET [] 0).2.2) :=
  ⟨hm3301_state_lifecycle.1 c5errDev,
    hm3301_state_lifecycle.2.2.1 (resetSess c5errDev) 4 (-19) rfl rfl,
    hm3301_state_lifecycle.2.2.2.1 (resetSess c5okDev) 4 [] rfl rfl,
    hm3301_state_lifecycle.2.2.2.2 (measSess c1dev)⟩

/-- A stop, reset or fan-cleaning command advances the session by one
transaction and one tx event of its 2-byte frame, whatever the oracle. -/
theorem do_cmd_simple_sess (s : Sess) (cmd : Nat) (data : List Nat)
    (size : Nat)
    (h : cmd = HM3301_STOP_MEAS ∨ cmd = HM3301_RESET ∨
      cmd = HM3301_START_FAN_CLEANING) :
    (hm3301_do_cmd s cmd data size).1 =
      { s with
        txn := s.txn + 1,
        evs := s.evs ++ [Ev.tx [cmd / 0x100, cmd % 0x100]] } := by
  rcases h with h | h | h <;> subst h <;>
    simp only [hm3301_do_cmd, HM3301_START_MEAS, HM3301_STOP_MEAS,
      HM3301_RESET, HM3301_START_FAN_CLEANING, HM3301_AUTO_CLEANING_PERIOD,
      HM3301_READ_AUTO_CLEANING_PERIOD, HM3301_READ_DATA_READY_FLAG,
      HM3301_READ_DATA, HM3301_READ_SERIAL] <;>
    norm_num <;>
    rw [cmd_finish_sess, wtr_sess_noRx]

/-- The reset sequence advances the session by two transactions and the
trace [reset frame, 300 ms sleep, stop frame], and sets the state to RESET,
whatever the oracle answers to either command. -/
theorem do_cmd_reset_sess (s : Sess) :
    (hm3301_do_cmd_reset s).1 =
      { s with
        txn := s.txn + 2,
        evs := s.evs ++ [Ev.tx [0xd3, 0x04], Ev.sleep 300,
          Ev.tx [0x01, 0x04]],
        st := RESET } := by
  simp only [hm3301_do_cmd_reset, msleep]
  rw [do_cmd_simple_sess _ _ _ _ (Or.inr (Or.inl rfl))]
  rw [do_cmd_simple_sess _ _ _ _ (Or.inl rfl)]
  simp [HM3301_RESET, HM3301_STOP_MEAS]

/-- The auto-cleaning-period write with an acknowledged send issues exactly
one transaction, transmitting the period bytes as two checksummed words, and
succeeds leaving the caller's buffer unchanged. -/
theorem do_cmd_auto_period_ok (s : Sess) (t0 t1 t2 t3 : Nat) (l : List Nat)
    (hdev : s.dev s.txn = TxnRes.ok l) :
    hm3301_do_cmd s HM3301_AUTO_CLEANING_PERIOD [t0, t1, t2, t3] 0 =
      ({ s with
         txn := s.txn + 1,
         evs := s.evs ++ [Ev.tx [0x80, 0x04, t0, t1,
           crc8 [t0, t1] CRC8_INIT_VALUE, t2, t3,
           crc8 [t2, t3] CRC8_INIT_VALUE]] }, [t0, t1, t2, t3], 0) := by
  simp only [hm3301_do_cmd, hm3301_write_then_read, hm3301_cmd_finish,
    HM3301_START_MEAS, HM3301_STOP_MEAS, HM3301_RESET,
    HM3301_START_FAN_CLEANING, HM3301_AUTO_CLEANING_PERIOD,
    HM3301_READ_AUTO_CLEANING_PERIOD, HM3301_READ_DATA_READY_FLAG,
    HM3301_READ_DATA, HM3301_READ_SERIAL]
  norm_num
  simp [hdev, stripLoop, stripAux]

/-- Claim C6: cleaning_period_store rejects every value outside
[0, 604800] with -Einval and a completely unchanged session (in particular
zero transport calls); for every value in range whose period write is
acknowledged it returns len (success) whatever happens afterwards — in
particular even when the reset step fails — leaves the state RESET, and its
trace is exactly: send of the checksummed period frame, 20 ms sleep, then
the reset sequence (reset frame, 300 ms sleep, stop flush frame). -/
theorem hm3301_cleaning_period_store_spec :
    (∀ s val len, (val < HM3301_AUTO_CLEANING_PERIOD_MIN ∨
        HM3301_AUTO_CLEANING_PERIOD_MAX < val) →
      cleaning_period_store s val len = (s, -Einval)) ∧
    (∀ s val len l, HM3301_AUTO_CLEANING_PERIOD_MIN ≤ val →
      val ≤ HM3301_AUTO_CLEANING_PERIOD_MAX →
      s.dev s.txn = TxnRes.ok l →
      (cleaning_period_store s val len).2 = (len : Int) ∧
      (cleaning_period_store s val len).1.st = RESET ∧
      (cleaning_period_store s val len).1.evs = s.evs ++
        [Ev.tx [0x80, 0x04, val.toNat / 0x1000000 % 0x100,
           val.toNat / 0x10000 % 0x100,
           crc8 [val.toNat / 0x1000000 % 0x100, val.toNat / 0x10000 % 0x100]
             CRC8_INIT_VALUE,
           val.toNat / 0x100 % 0x100, val.toNat % 0x100,
           crc8 [val.toNat / 0x100 % 0x100, val.toNat % 0x100]
             CRC8_INIT_VALUE],
         Ev.sleep 20, Ev.tx [0xd3, 0x04], Ev.sleep 300,
         Ev.tx [0x01, 0x04]]) := by
  constructor
  · intro s val len h
    simp [cleaning_period_store, if_pos h]
  · intro s val len l hmin hmax hdev
    have hfr : ¬(val < HM3301_AUTO_CLEANING_PERIOD_MIN ∨
        HM3301_AUTO_CLEANING_PERIOD_MAX < val) := by
      push_neg
      exact ⟨hmin, hmax⟩
    simp only [cleaning_period_store, if_neg hfr, put_unaligned_be32]
    rw [do_cmd_auto_period_ok _ _ _ _ _ _ hdev]
    norm_num
    simp only [msleep]
    rw [do_cmd_reset_sess]
    simp

/-- Claim C6 witness: storing period 0 over an all-acknowledging transport
returns the byte count 3, ends in RESET and produces exactly the write,
sleep and reset-sequence trace; storing 604801 is rejected with -Einval and
an untouched session. -/
theorem hm3301_cleaning_period_store_spec_witness :
    ((604801 : Int) < HM3301_AUTO_CLEANING_PERIOD_MIN ∨
      HM3301_AUTO_CLEANING_PERIOD_MAX < (604801 : Int)) ∧
    cleaning_period_store (measSess c5okDev) 604801 7 =
      (measSess c5okDev, -Einval) ∧
    ((cleaning_period_store (resetSess c5okDev) 0 3).2 = ((3 : Nat) : Int) ∧
      (cleaning_period_store (resetSess c5okDev) 0 3).1.st = RESET ∧
      (cleaning_period_store (resetSess c5okDev) 0 3).1.evs =
        (resetSess c5okDev).evs ++
        [Ev.tx [0x80, 0x04, (0 : Int).toNat / 0x1000000 % 0x100,
           (0 : Int).toNat / 0x10000 % 0x100,
           crc8 [(0 : Int).toNat / 0x1000000 % 0x100,
             (0 : Int).toNat / 0x10000 % 0x100] CRC8_INIT_VALUE,
           (0 : Int).toNat / 0x100 % 0x100, (0 : Int).toNat % 0x100,
           crc8 [(0 : Int).toNat / 0x100 % 0x100, (0 : Int).toNat % 0x100]
             CRC8_INIT_VALUE],
         Ev.sleep 20, Ev.tx [0xd3, 0x04], Ev.sleep 300,
         Ev.tx [0x01, 0x04]]) :=
  ⟨by decide,
    hm3301_cleaning_period_store_spec.1 (measSess c5okDev) 604801 7
      (by decide),
    hm3301_cleaning_period_store_spec.2 (resetSess c5okDev) 0 3 []
      (by decide) (by decide) rfl⟩

/-- One not-ready poll round: with the send acknowledged and a correctly
checksummed flag response whose byte 1 differs from 1, the loop records the
flag-read send, the 3-byte receive and a 300 ms sleep, then retries with one
try fewer. -/
theorem poll_step (s : Sess) (tmp : List Nat) (n : Nat) (x y : Nat)
    (hy : y ≠ 1)
    (h0 : s.dev s.txn = TxnRes.ok [])
    (h1 : s.dev (s.txn + 1) =
      TxnRes.ok [x, y, crc8 [x, y] CRC8_INIT_VALUE]) :
    hm3301_poll s tmp (n + 1) =
      hm3301_poll
        { s with
          txn := s.txn + 2,
          evs := s.evs ++ [Ev.tx [0x02, 0x02], Ev.rx 3, Ev.sleep 300] }
        (x :: y :: tmp.drop 2) n := by
  simp only [hm3301_poll, hm3301_do_cmd, hm3301_cmd_read,
    hm3301_write_then_read, hm3301_cmd_finish, msleep,
    HM3301_START_MEAS, HM3301_STOP_MEAS, HM3301_RESET,
    HM3301_START_FAN_CLEANING, HM3301_AUTO_CLEANING_PERIOD,
    HM3301_READ_AUTO_CLEANING_PERIOD, HM3301_READ_DATA_READY_FLAG,
    HM3301_READ_DATA, HM3301_READ_SERIAL]
  norm_num
  simp [h0, h1, stripLoop, stripAux, hy, Nat.add_assoc]

/-- Trace produced by n consecutive not-ready poll rounds. -/
def pollTrace : Nat → List Ev
  | 0 => []
  | n + 1 => Ev.tx [0x02, 0x02] :: Ev.rx 3 :: Ev.sleep 300 :: pollTrace n

/-- Over a transport that always answers a valid not-ready flag response,
the poll loop with n tries exhausts them all: it issues exactly n flag reads
with n receives and n sleeps of 300 ms — one after every failed poll,
including the last — and reports the tries exhausted with return code 0. -/
theorem poll_all_notready (b0 b1 : Nat → Nat) (h : ∀ j, b1 j ≠ 1) :
    ∀ (n : Nat) (s : Sess) (tmp : List Nat),
    s.dev = polldev b0 b1 → s.txn % 2 = 0 →
    ∃ t, hm3301_poll s tmp n =
      ({ s with txn := s.txn + 2 * n, evs := s.evs ++ pollTrace n },
        t, true, 0) := by
  intro n
  induction n with
  | zero =>
    intro s tmp hdev htxn
    refine ⟨tmp, ?_⟩
    simp [hm3301_poll, pollTrace]
  | succ m ih =>
    intro s tmp hdev htxn
    have h0 : s.dev s.txn = TxnRes.ok [] := by
      rw [hdev]
      simp [polldev, htxn]
    have hdiv : (s.txn + 1) / 2 = s.txn / 2 := by omega
    have h1 : s.dev (s.txn + 1) =
        TxnRes.ok [b0 (s.txn / 2), b1 (s.txn / 2),
          crc8 [b0 (s.txn / 2), b1 (s.txn / 2)] CRC8_INIT_VALUE] := by
      rw [hdev]
      simp only [polldev]
      rw [if_neg (by omega), hdiv]
    rw [poll_step s tmp m _ _ (h (s.txn / 2)) h0 h1]
    obtain ⟨t, ht⟩ := ih
      { s with
        txn := s.txn + 2,
        evs := s.evs ++ [Ev.tx [0x02, 0x02], Ev.rx 3, Ev.sleep 300] }
      (b0 (s.txn / 2) :: b1 (s.txn / 2) :: tmp.drop 2)
      (by simp [hdev]) (by simp; omega)
    refine ⟨t, ?_⟩
    rw [ht]
    have htxn2 : s.txn + 2 + 2 * m = s.txn + 2 * (m + 1) := by ring
    simp [pollTrace, htxn2]

/-- Claim C4 (amended): when the ready flag reads as not-ready on every
poll, read_measurement performs exactly 5 flag-read attempts and exactly 5
sleeps of 300 ms — the loop sleeps after every failed poll, including the
fifth and last, so the sleeps are 5 rather than 4 intervening ones — then
fails with -Etimedout, and the device state is left as MEASURING (not
reverted to RESET). -/
theorem hm3301_poll_timeout (b0 b1 : Nat → Nat) (h : ∀ j, b1 j ≠ 1) :
    (hm3301_do_meas (measSess (polldev b0 b1)) 4).2.2 = -Etimedout ∧
    (hm3301_do_meas (measSess (polldev b0 b1)) 4).1.st = MEASURING ∧
    countFlagReads (hm3301_do_meas (measSess (polldev b0 b1)) 4).1.evs = 5 ∧
    countSleeps300 (hm3301_do_meas (measSess (polldev b0 b1)) 4).1.evs =
      5 := by
  obtain ⟨t, ht⟩ := poll_all_notready b0 b1 h 5 (measSess (polldev b0 b1))
    (List.replicate 16 0) rfl rfl
  have hmeas : hm3301_do_meas (measSess (polldev b0 b1)) 4 =
      ({ dev := polldev b0 b1, txn := 10, evs := pollTrace 5,
         st := MEASURING }, [], -Etimedout) := by
    simp only [hm3301_do_meas, hm3301_meas_body]
    rw [if_neg (by simp [measSess, MEASURING, RESET])]
    rw [ht]
    norm_num [measSess]
  refine ⟨by rw [hmeas], by rw [hmeas], ?_, ?_⟩
  · rw [hmeas]
    show countFlagReads (pollTrace 5) = 5
    decide
  · rw [hmeas]
    show countSleeps300 (pollTrace 5) = 5
    decide

/-- Claim C4 counterexample: with an always-not-ready transport the driver
sleeps 5 times of 300 ms (one sleep also follows the fifth failed read,
before the timeout is reported), not 4, while performing its 5 flag reads
and timing out in the MEASURING state. -/
theorem hm3301_poll_timeout_cex :
    countSleeps300 (hm3301_do_meas (measSess (polldev (fun _ => 0)
      (fun _ => 0))) 4).1.evs = 5 ∧
    ¬ countSleeps300 (hm3301_do_meas (measSess (polldev (fun _ => 0)
      (fun _ => 0))) 4).1.evs = 4 ∧
    countFlagReads (hm3301_do_meas (measSess (polldev (fun _ => 0)
      (fun _ => 0))) 4).1.evs = 5 ∧
    (hm3301_do_meas (measSess (polldev (fun _ => 0) (fun _ => 0))) 4).2.2 =
      -Etimedout ∧
    (hm3301_do_meas (measSess (polldev (fun _ => 0) (fun _ => 0))) 4).1.st =
      MEASURING := by decide

/-- Claim C4 witness: the amended theorem applied to the transport whose
flag responses are all zero (never ready). -/
theorem hm3301_poll_timeout_witness :
    (∀ j : Nat, (fun _ : Nat => 0) j ≠ 1) ∧
    ((hm3301_do_meas (measSess (polldev (fun _ => 0) (fun _ => 0))) 4).2.2 =
        -Etimedout ∧
      (hm3301_do_meas (measSess (polldev (fun _ => 0)
        (fun _ => 0))) 4).1.st = MEASURING ∧
      countFlagReads (hm3301_do_meas (measSess (polldev (fun _ => 0)
        (fun _ => 0))) 4).1.evs = 5 ∧
      countSleeps300 (hm3301_do_meas (measSess (polldev (fun _ => 0)
        (fun _ => 0))) 4).1.evs = 5) :=
  ⟨fun _ => Nat.zero_ne_one,
    hm3301_poll_timeout (fun _ => 0) (fun _ => 0) (fun _ => Nat.zero_ne_one)⟩

end HM3301
